import Mathlib

/-!
Shallow embedding of the MagicPi-NVR pi-cam-server core
(src/pi-cam-server/src/server.ts, src/pi-cam-server/src/api/controller.ts
which contains the DeviceManager service, src/pi-cam-server/src/services/VideoProcessor.ts,
and the authentication middleware), together with theorems settling the
specification claims about message classification, device registry state,
the recording pipeline lifecycle, and WebSocket connection routing.

JavaScript `Map` objects are embedded as association lists with
first-match lookup, replace-or-append insertion, and delete-all removal
(these agree with `Map` semantics on duplicate-free states, which is the
only shape the code produces).  Wall-clock timestamps (`new Date()`) are
threaded as an explicit `Nat` parameter, and the random credential from
`crypto.randomBytes` is threaded as an explicit fresh-key parameter.
WebSocket handles are modelled by numeric identifiers together with a
world function assigning each identifier a ready state.
-/

namespace PiNvr

/-- First-match lookup in an association list (JS `Map.get`). -/
def alookup {α : Type} (l : List (String × α)) (k : String) : Option α :=
  match l with
  | [] => none
  | (k', v) :: t => if k' = k then some v else alookup t k

/-- Replace-or-append insertion in an association list (JS `Map.set`). -/
def aset {α : Type} (l : List (String × α)) (k : String) (v : α) : List (String × α) :=
  match l with
  | [] => [(k, v)]
  | (k', v') :: t => if k' = k then (k, v) :: t else (k', v') :: aset t k v

/-- Removal of a key from an association list (JS `Map.delete`). -/
def adel {α : Type} (l : List (String × α)) (k : String) : List (String × α) :=
  l.filter (fun p => p.1 ≠ k)

/-- Key-set insertion used for the `activeRecordings` map, whose values
(FFmpeg command handles) are opaque to the model: add the key if absent. -/
def addKey (l : List String) (k : String) : List String :=
  if k ∈ l then l else l ++ [k]

/-- Key-set removal (JS `Map.delete` on the `activeRecordings` map). -/
def delKey (l : List String) (k : String) : List String :=
  l.filter (fun x => x ≠ k)

/-- Device status enumeration from `DeviceManager.ts` (`DeviceStatus`). -/
inductive DeviceStatus
  | registered
  | online
  | streaming
  | asleep
  | offline
deriving DecidableEq, Repr

/-- Operation mode union type from `DeviceManager.ts`
(`'motion-triggered' | 'always-on' | 'continuous'`). -/
inductive OpMode
  | motionTriggered
  | alwaysOn
  | continuous
deriving DecidableEq, Repr

/-- Device configuration record from `DeviceManager.ts` (`DeviceConfig`). -/
structure DeviceConfig where
  resolution : String
  framerate : Nat
  quality : Nat
  brightness : Int
  contrast : Int
  saturation : Int
  operationMode : OpMode
  alwaysOnDuration : Option Nat
  alwaysOnInterval : Option Nat
deriving DecidableEq, Repr

/-- Partial device configuration (`Partial<DeviceConfig>` as consumed by
`updateDeviceConfig` via object spread): each present field overwrites. -/
structure DeviceConfigPatch where
  resolution : Option String := none
  framerate : Option Nat := none
  quality : Option Nat := none
  brightness : Option Int := none
  contrast : Option Int := none
  saturation : Option Int := none
  operationMode : Option OpMode := none
  alwaysOnDuration : Option (Option Nat) := none
  alwaysOnInterval : Option (Option Nat) := none
deriving DecidableEq, Repr

/-- Object-spread merge `{ ...device.config, ...config }` from
`DeviceManager.updateDeviceConfig`. -/
def mergeConfig (c : DeviceConfig) (p : DeviceConfigPatch) : DeviceConfig :=
  { resolution := p.resolution.getD c.resolution
    framerate := p.framerate.getD c.framerate
    quality := p.quality.getD c.quality
    brightness := p.brightness.getD c.brightness
    contrast := p.contrast.getD c.contrast
    saturation := p.saturation.getD c.saturation
    operationMode := p.operationMode.getD c.operationMode
    alwaysOnDuration := p.alwaysOnDuration.getD c.alwaysOnDuration
    alwaysOnInterval := p.alwaysOnInterval.getD c.alwaysOnInterval }

/-- Modelled from the spec: the default device configuration constant
`config.defaultDeviceConfig` lives in `config.ts`, which is not among the
provided sources; the spec only requires it to be a fixed default
configuration handed to every first-time registration. -/
def config_defaultDeviceConfig : DeviceConfig :=
  { resolution := "VGA"
    framerate := 10
    quality := 10
    brightness := 0
    contrast := 0
    saturation := 0
    operationMode := .continuous
    alwaysOnDuration := none
    alwaysOnInterval := none }

/-- WebSocket ready states (the `ws` library's `readyState`). -/
inductive ReadyState
  | connecting
  | wsOpen
  | closing
  | closed
deriving DecidableEq, Repr

/-- The world of WebSocket handles: each numeric socket identifier has a
ready state. -/
def SockWorld : Type := Nat → ReadyState

/-- `ws.close()` on a socket handle moves it out of the OPEN state. -/
def closeSock (w : SockWorld) (sid : Nat) : SockWorld :=
  fun s => if s = sid then .closing else w s

/-- Device record from `DeviceManager.ts` (`DeviceInfo`); the WebSocket
handle is a numeric identifier into the socket world. -/
structure DeviceInfo where
  deviceId : String
  apiKey : String
  name : Option String := none
  status : DeviceStatus
  config : DeviceConfig
  socket : Option Nat := none
  lastSeen : Nat
  registeredAt : Nat
  totalConnections : Nat
  isRecording : Bool
  operationMode : OpMode
  motionSensorDetected : Bool
  batteryLevel : Option Nat := none
deriving DecidableEq, Repr

/-- The `DeviceManager` singleton's state: the `devices` map and the
`apiKeyToDeviceId` map. -/
structure DMState where
  devices : List (String × DeviceInfo)
  apiKeyToDeviceId : List (String × String)
deriving DecidableEq, Repr

/-- `DeviceManager.getDeviceById`. -/
def getDeviceById (dm : DMState) (deviceId : String) : Option DeviceInfo :=
  alookup dm.devices deviceId

/-- `DeviceManager.getDevice` (lookup by API key through both maps). -/
def getDevice (dm : DMState) (apiKey : String) : Option DeviceInfo :=
  match alookup dm.apiKeyToDeviceId apiKey with
  | none => none
  | some deviceId => alookup dm.devices deviceId

/-- `DeviceManager.updateDeviceStatus`: for a known device, set the status,
refresh `lastSeen`, and increment `totalConnections` when the new status is
ONLINE; unknown ids are a logged no-op. -/
def updateDeviceStatus (dm : DMState) (deviceId : String) (status : DeviceStatus)
    (now : Nat) : DMState :=
  match alookup dm.devices deviceId with
  | none => dm
  | some d =>
      let d' := { d with
        status := status
        lastSeen := now
        totalConnections :=
          if status = .online then d.totalConnections + 1 else d.totalConnections }
      { dm with devices := aset dm.devices deviceId d' }

/-- `DeviceManager.setRecordingStatus`: for a known device, set the
`isRecording` flag and, when turning it on, transition the status to
STREAMING. -/
def setRecordingStatus (dm : DMState) (deviceId : String) (b : Bool)
    (now : Nat) : DMState :=
  match alookup dm.devices deviceId with
  | none => dm
  | some d =>
      let dm1 := { dm with devices := aset dm.devices deviceId { d with isRecording := b } }
      if b then updateDeviceStatus dm1 deviceId .streaming now else dm1

/-- `DeviceManager.updateDeviceConfig`: spread-merge the partial
configuration into a known device's configuration; unknown ids are a
logged no-op. -/
def updateDeviceConfig (dm : DMState) (deviceId : String)
    (p : DeviceConfigPatch) : DMState :=
  match alookup dm.devices deviceId with
  | none => dm
  | some d =>
      { dm with devices := aset dm.devices deviceId { d with config := mergeConfig d.config p } }

/-- `DeviceManager.updateOperationMode`: for a known device, set the
operation mode, the motion-sensor flag, and mirror the mode into the
configuration; unknown ids are a logged no-op. -/
def updateOperationMode (dm : DMState) (deviceId : String) (mode : OpMode)
    (motionSensorDetected : Bool) : DMState :=
  match alookup dm.devices deviceId with
  | none => dm
  | some d =>
      let d' := { d with
        operationMode := mode
        motionSensorDetected := motionSensorDetected
        config := { d.config with operationMode := mode } }
      { dm with devices := aset dm.devices deviceId d' }

/-- `DeviceManager.registerDevice`: return the existing API key and
configuration when the id is already known; otherwise mint the supplied
fresh key, store a new record with the default configuration and status
REGISTERED, and index the key.  The fresh random key from
`crypto.randomBytes` is threaded as the `freshKey` parameter. -/
def registerDevice (dm : DMState) (deviceId : String) (freshKey : String)
    (now : Nat) : (String × DeviceConfig) × DMState :=
  match alookup dm.devices deviceId with
  | some existing => ((existing.apiKey, existing.config), dm)
  | none =>
      let cfg := config_defaultDeviceConfig
      let info : DeviceInfo :=
        { deviceId := deviceId
          apiKey := freshKey
          status := .registered
          config := cfg
          lastSeen := now
          registeredAt := now
          totalConnections := 0
          isRecording := false
          operationMode := cfg.operationMode
          motionSensorDetected := false }
      ((freshKey, cfg),
       { dm with
         devices := aset dm.devices deviceId info
         apiKeyToDeviceId := aset dm.apiKeyToDeviceId freshKey deviceId })

/-- `DeviceManager.removeSocket`: for a known device, delete the socket
reference and transition the status to OFFLINE. -/
def removeSocket (dm : DMState) (deviceId : String) (now : Nat) : DMState :=
  match alookup dm.devices deviceId with
  | none => dm
  | some d =>
      let dm1 := { dm with devices := aset dm.devices deviceId { d with socket := none } }
      updateDeviceStatus dm1 deviceId .offline now

/-- Observable side effects of the server's handlers: stream writes,
FFmpeg lifecycle operations, WebSocket sends/closes, and scheduled
restart timers. -/
inductive Effect
  | frameWritten (deviceId : String) (bytes : List Nat)
  | recordingStarted (deviceId : String)
  | streamEnded (deviceId : String)
  | commandKilled (deviceId : String)
  | socketSend (sid : Nat) (tag : String)
  | socketClosed (sid : Nat) (code : Option Nat)
  | restartScheduled (deviceId : String) (delayMs : Nat)
  | invalidJsonLogged (deviceId : String)
deriving DecidableEq, Repr

/-- `DeviceManager.setSocket`: for a known device, close the previously
bound socket when it is still OPEN, store the new socket, and transition
the status to ONLINE; unknown ids are a logged no-op. -/
def setSocket (dm : DMState) (w : SockWorld) (deviceId : String) (sid : Nat)
    (now : Nat) : DMState × SockWorld × List Effect :=
  match alookup dm.devices deviceId with
  | none => (dm, w, [])
  | some d =>
      let closeStep : SockWorld × List Effect :=
        match d.socket with
        | some old =>
            if w old = .wsOpen then (closeSock w old, [Effect.socketClosed old none])
            else (w, [])
        | none => (w, [])
      let dm1 := { dm with devices := aset dm.devices deviceId { d with socket := some sid } }
      (updateDeviceStatus dm1 deviceId .online now, closeStep.1, closeStep.2)

/-- A Node `Writable` stream as observed by the pipeline: the chunks
written so far and the `ended`/`destroyed` flags. -/
structure WStream where
  chunks : List (List Nat)
  ended : Bool
  destroyed : Bool
deriving DecidableEq, Repr

/-- The fresh input stream created by `VideoProcessor.startRecording`. -/
def freshStream : WStream := { chunks := [], ended := false, destroyed := false }

/-- `VideoProcessor` state: the `activeRecordings` map (keys only — the
FFmpeg command handles are opaque external objects) and the
`recordingStreams` map. -/
structure VPState where
  activeRecordings : List String
  recordingStreams : List (String × WStream)
deriving DecidableEq, Repr

/-- Combined server state: the `DeviceManager` singleton, the
`VideoProcessor`, the WebSocket world, and the server's
`frontendClients` set (socket identifiers). -/
structure Sys where
  dm : DMState
  vp : VPState
  sockets : SockWorld
  frontendClients : List Nat

/-- `VideoProcessor.isRecording`. -/
def isRecordingB (sys : Sys) (deviceId : String) : Bool :=
  sys.vp.activeRecordings.contains deviceId

/-- `VideoProcessor.stopRecording`: when an active FFmpeg command exists,
end the input stream (if any), kill the command, delete both map entries,
and clear the device's recording flag; otherwise do nothing.  Errors are
caught and logged, so the function is total. -/
def stopRecording (sys : Sys) (deviceId : String) (now : Nat) : Sys × List Effect :=
  if sys.vp.activeRecordings.contains deviceId then
    let effs :=
      (if (alookup sys.vp.recordingStreams deviceId).isSome
       then [Effect.streamEnded deviceId] else [])
      ++ [Effect.commandKilled deviceId]
    let vp' : VPState :=
      { activeRecordings := delKey sys.vp.activeRecordings deviceId
        recordingStreams := adel sys.vp.recordingStreams deviceId }
    ({ sys with vp := vp', dm := setRecordingStatus sys.dm deviceId false now }, effs)
  else (sys, [])

/-- `VideoProcessor.startRecording`: first stop any existing recording,
then look the device up (an unknown device throws, reported by the third
component being `false`; the state changes made so far persist), register
the FFmpeg command under `activeRecordings`, run it, and store a fresh
input stream under `recordingStreams`.  The output path computation and
directory creation are filesystem effects with no bearing on the modelled
state. -/
def startRecording (sys : Sys) (deviceId : String) (now : Nat) :
    Sys × List Effect × Bool :=
  let r := stopRecording sys deviceId now
  match alookup r.1.dm.devices deviceId with
  | none => (r.1, r.2, false)
  | some _ =>
      let vp' : VPState :=
        { activeRecordings := addKey r.1.vp.activeRecordings deviceId
          recordingStreams := aset r.1.vp.recordingStreams deviceId freshStream }
      ({ r.1 with vp := vp' }, r.2 ++ [Effect.recordingStarted deviceId], true)

/-- `VideoProcessor.writeFrame`: append the frame bytes to the device's
recording stream when one exists and is not destroyed; otherwise do
nothing. -/
def writeFrame (sys : Sys) (deviceId : String) (bytes : List Nat) : Sys × List Effect :=
  match alookup sys.vp.recordingStreams deviceId with
  | none => (sys, [])
  | some st =>
      if st.destroyed then (sys, [])
      else
        let st' := { st with chunks := st.chunks ++ [bytes] }
        ({ sys with vp := { sys.vp with
             recordingStreams := aset sys.vp.recordingStreams deviceId st' } },
         [Effect.frameWritten deviceId bytes])

/-- `VideoProcessor.handleRecordingError`: delete both map entries, clear
the recording flag, and schedule one restart attempt after a fixed
5000 ms delay (`setTimeout`). -/
def handleRecordingError (sys : Sys) (deviceId : String) (now : Nat) : Sys × List Effect :=
  let vp' : VPState :=
    { activeRecordings := delKey sys.vp.activeRecordings deviceId
      recordingStreams := adel sys.vp.recordingStreams deviceId }
  ({ sys with vp := vp', dm := setRecordingStatus sys.dm deviceId false now },
   [Effect.restartScheduled deviceId 5000])

/-- The timer body scheduled by `handleRecordingError`: call
`startRecording` and swallow any failure (`.catch`). -/
def fireScheduledRestart (sys : Sys) (deviceId : String) (now : Nat) : Sys × List Effect :=
  let r := startRecording sys deviceId now
  (r.1, r.2.1)

/-- Parsed device command envelope as consumed by
`handleDeviceCommand` (the fields the code reads from the JSON value). -/
structure DeviceCommand where
  type : String
  status : Option String := none
  message : Option String := none
deriving DecidableEq, Repr

/-- The `statusMap` literal in the `status_update` case of
`handleDeviceCommand`. -/
def statusMap (s : String) : Option DeviceStatus :=
  if s = "online" then some .online
  else if s = "streaming" then some .streaming
  else if s = "entering_sleep" then some .asleep
  else if s = "offline" then some .offline
  else none

/-- The acknowledgment pattern `device && device.socket &&
device.socket.readyState === WebSocket.OPEN` guarding each `send` in
`handleDeviceCommand`. -/
def sendIfOpen (w : SockWorld) (dev : Option DeviceInfo) (tag : String) : List Effect :=
  match dev with
  | none => []
  | some d =>
      match d.socket with
      | none => []
      | some sid => if w sid = .wsOpen then [Effect.socketSend sid tag] else []

/-- `PiCameraServer.handleDeviceCommand`: dispatch a parsed envelope on
its `type` field (status_update / heartbeat / ready / error / default). -/
def handleDeviceCommand (sys : Sys) (deviceId : String) (cmd : DeviceCommand)
    (now : Nat) : Sys × List Effect :=
  let device := getDeviceById sys.dm deviceId
  if cmd.type = "status_update" then
    match cmd.status with
    | none => (sys, [])
    | some s =>
        if s = "" then (sys, [])
        else
          match statusMap s with
          | none => (sys, [])
          | some newStatus =>
              ({ sys with dm := updateDeviceStatus sys.dm deviceId newStatus now },
               sendIfOpen sys.sockets device "status_ack")
  else if cmd.type = "heartbeat" then
    ({ sys with dm := updateDeviceStatus sys.dm deviceId .online now },
     sendIfOpen sys.sockets device "heartbeat_ack")
  else if cmd.type = "ready" then
    (sys, sendIfOpen sys.sockets device "ready_ack")
  else
    (sys, [])

/-- The JPEG-frame test of `handleWebSocketMessage`:
`data.length > 2 && data[0] === 0xFF && data[1] === 0xD8`. -/
def isVideoFrame (data : List Nat) : Bool :=
  decide (2 < data.length) && (data.get? 0 == some 0xFF) && (data.get? 1 == some 0xD8)

/-- The binary-frame branch of `handleWebSocketMessage`: lazily start the
recording when none is active, then write the frame; a thrown
`startRecording` is caught by the handler's outer catch, skipping the
write. -/
def videoPath (sys : Sys) (deviceId : String) (data : List Nat) (now : Nat) :
    Sys × List Effect :=
  if isRecordingB sys deviceId then writeFrame sys deviceId data
  else
    let r := startRecording sys deviceId now
    if r.2.2 then
      let r2 := writeFrame r.1 deviceId data
      (r2.1, r.2.1 ++ r2.2)
    else (r.1, r.2.1)

/-- The text branch of `handleWebSocketMessage`: decode the payload as a
JSON command envelope (the external `JSON.parse` plus field extraction is
threaded as the `dec` parameter) and dispatch it, or log and drop the
payload when parsing fails. -/
def controlPath (dec : List Nat → Option DeviceCommand) (sys : Sys)
    (deviceId : String) (data : List Nat) (now : Nat) : Sys × List Effect :=
  match dec data with
  | some cmd => handleDeviceCommand sys deviceId cmd now
  | none => (sys, [Effect.invalidJsonLogged deviceId])

/-- `PiCameraServer.handleWebSocketMessage`: classify the payload by the
JPEG magic-number test and route it to the video or the control branch. -/
def handleWebSocketMessage (dec : List Nat → Option DeviceCommand) (sys : Sys)
    (deviceId : String) (data : List Nat) (now : Nat) : Sys × List Effect :=
  if isVideoFrame data then videoPath sys deviceId data now
  else controlPath dec sys deviceId data now

/-- `PiCameraServer.handleWebSocketClose`: stop the device's recording
and remove the WebSocket association (status OFFLINE); the body is
wrapped in try/catch, so the handler is total. -/
def handleWebSocketClose (sys : Sys) (deviceId : String) (now : Nat) :
    Sys × List Effect :=
  let r := stopRecording sys deviceId now
  ({ r.1 with dm := removeSocket r.1.dm deviceId now }, r.2)

/-- JavaScript truthiness of an optional string value (`undefined` and the
empty string are falsy). -/
def jsTruthy : Option String → Bool
  | none => false
  | some s => !(s == "")

/-- JavaScript `a || b` on optional strings: the first operand when
truthy, otherwise the second operand. -/
def jsOr (a b : Option String) : Option String :=
  if jsTruthy a then a else b

/-- Prefix test on character lists for the substring check. -/
def charsPrefix : List Char → List Char → Bool
  | [], _ => true
  | _ :: _, [] => false
  | a :: s, b :: t => a == b && charsPrefix s t

/-- Substring containment on character lists. -/
def charsContains (sub : List Char) : List Char → Bool
  | [] => sub.isEmpty
  | c :: t => charsPrefix sub (c :: t) || charsContains sub t

/-- JavaScript `String.prototype.includes`. -/
def strIncludes (s pat : String) : Bool :=
  charsContains pat.data s.data

/-- The WebSocket upgrade request headers read by `verifyClient` and the
connection handlers.  The Host header is modelled as present (an HTTP/1.1
upgrade request always carries one); `origin`, `referer`, and the
`x-api-key` header may be absent, as may the `apiKey` query parameter. -/
structure Handshake where
  origin : Option String
  referer : Option String
  host : String
  xApiKeyHeader : Option String
  queryApiKey : Option String

/-- `request.headers.origin || request.headers.referer`. -/
def originOrReferer (h : Handshake) : Option String :=
  jsOr h.origin h.referer

/-- The frontend-client test shared by `verifyClient` and
`handleWebSocketConnection`: the effective origin is truthy and either
contains the Host header value or starts with a localhost URL. -/
def isFrontendClient (h : Handshake) : Bool :=
  match originOrReferer h with
  | none => false
  | some o =>
      !(o == "") &&
      (strIncludes o h.host
        || o.startsWith "https://localhost"
        || o.startsWith "http://localhost")

/-- `validateWebSocketApiKey` from the authentication middleware: a falsy
key is rejected, otherwise the key must resolve to a registered device. -/
def validateWebSocketApiKey (dm : DMState) (apiKey : String) : Bool :=
  if apiKey = "" then false else (getDevice dm apiKey).isSome

/-- `getDeviceIdFromApiKey` from the authentication middleware. -/
def getDeviceIdFromApiKey (dm : DMState) (apiKey : String) : Option String :=
  (getDevice dm apiKey).map (fun d => d.deviceId)

/-- `verifyClient` from `setupWebSocketServer`: same-origin frontend
clients are admitted unconditionally; any other peer must present a valid
API key in the `x-api-key` header or the `apiKey` query parameter. -/
def verifyClient (dm : DMState) (h : Handshake) : Bool :=
  let apiKey := jsOr h.xApiKeyHeader h.queryApiKey
  if isFrontendClient h then true
  else if jsTruthy apiKey then validateWebSocketApiKey dm (apiKey.getD "")
  else false

/-- How an accepted connection is handled after the handshake. -/
inductive ConnOutcome
  | viewer
  | deviceClosed1008
  | deviceAccepted (deviceId : String)
deriving DecidableEq, Repr

/-- The dispatch in `handleWebSocketConnection` followed by
`handleDeviceConnection`: a same-origin peer with no `x-api-key` header
is handled as a frontend (viewer) connection; every other peer is handled
as a device, resolving `x-api-key` header or `apiKey` query parameter to
a device id and closing the socket with code 1008 when the resolution
fails (or yields a falsy id). -/
def routeConnection (dm : DMState) (h : Handshake) : ConnOutcome :=
  if isFrontendClient h && !(jsTruthy h.xApiKeyHeader) then .viewer
  else
    let apiKey := (jsOr h.xApiKeyHeader h.queryApiKey).getD ""
    match getDeviceIdFromApiKey dm apiKey with
    | none => .deviceClosed1008
    | some did => if did = "" then .deviceClosed1008 else .deviceAccepted did

/-- Concrete device record used for witnesses and counterexamples. -/
def sampleDevice (st : DeviceStatus) (sock : Option Nat) (rec : Bool) : DeviceInfo :=
  { deviceId := "AA:BB:CC:DD:EE:FF"
    apiKey := "key1"
    status := st
    config := config_defaultDeviceConfig
    socket := sock
    lastSeen := 0
    registeredAt := 0
    totalConnections := 1
    isRecording := rec
    operationMode := .continuous
    motionSensorDetected := false }

/-- Concrete one-device registry used for witnesses and counterexamples. -/
def sampleDM (st : DeviceStatus) (sock : Option Nat) (rec : Bool) : DMState :=
  { devices := [("AA:BB:CC:DD:EE:FF", sampleDevice st sock rec)]
    apiKeyToDeviceId := [("key1", "AA:BB:CC:DD:EE:FF")] }

/-- The status hierarchy implied by the spec's "status ≥ ONLINE" phrasing
(STREAMING sits above ONLINE), used to state demotion. -/
def statusRank : DeviceStatus → Nat
  | .offline => 0
  | .asleep => 1
  | .registered => 2
  | .online => 3
  | .streaming => 4

/-- A decoder that always fails, standing in for `JSON.parse` on
non-JSON bytes. -/
def decNone : List Nat → Option DeviceCommand := fun _ => none

/-- Concrete server state with one streaming, recording device, used to
exercise the failure/restart cycle. -/
def c5_sys : Sys :=
  Sys.mk (sampleDM .streaming none true)
    (VPState.mk ["AA:BB:CC:DD:EE:FF"] [("AA:BB:CC:DD:EE:FF", freshStream)])
    (fun _ => ReadyState.closed) []

/-- One failure/restart cycle: the recording-error handler fires, then
the scheduled restart timer fires and the recording fails again. -/
def c5_cycle (s : Sys) : Sys :=
  (fireScheduledRestart (handleRecordingError s "AA:BB:CC:DD:EE:FF" 0).1
    "AA:BB:CC:DD:EE:FF" 0).1

/-- Concrete server state with one online device and no active pipeline. -/
def c1_sys : Sys :=
  Sys.mk (sampleDM .online (some 1) false) (VPState.mk [] [])
    (fun _ => ReadyState.wsOpen) []

/-- Concrete server state with one streaming, recording device and one
connected, open frontend (viewer) client on socket 7. -/
def c2_sys : Sys :=
  Sys.mk (sampleDM .streaming (some 1) true)
    (VPState.mk ["AA:BB:CC:DD:EE:FF"] [("AA:BB:CC:DD:EE:FF", freshStream)])
    (fun _ => ReadyState.wsOpen) [7]

/-- Concrete same-origin handshake with no credential. -/
def c10_handshake : Handshake :=
  { origin := some "https://myhost.local/index"
    referer := none
    host := "myhost.local"
    xApiKeyHeader := none
    queryApiKey := none }

/-- Discriminator: is the effect a WebSocket send? -/
def Effect.isSocketSend : Effect → Bool
  | .socketSend _ _ => true
  | _ => false

/-- Discriminator: is the effect a frame write into the pipeline? -/
def Effect.isFrameWritten : Effect → Bool
  | .frameWritten _ _ => true
  | _ => false

/-- Discriminator: is the effect the invalid-JSON log of the control
branch? -/
def Effect.isInvalidJsonLogged : Effect → Bool
  | .invalidJsonLogged _ => true
  | _ => false

theorem alookup_aset_self {α : Type} (l : List (String × α)) (k : String) (v : α) :
    alookup (aset l k v) k = some v := by
  induction l with
  | nil => simp [aset, alookup]
  | cons p t ih =>
      cases p with
      | mk k' v' =>
          by_cases h : k' = k <;> simp [aset, alookup, h, ih]

theorem alookup_adel_self {α : Type} (l : List (String × α)) (k : String) :
    alookup (adel l k) k = none := by
  induction l with
  | nil => rfl
  | cons p t ih =>
      cases p with
      | mk k' v' =>
          by_cases h : k' = k <;>
            simp [adel, List.filter_cons, h, alookup] at ih ⊢ <;>
            simpa [adel] using ih

theorem contains_delKey (l : List String) (k : String) :
    (delKey l k).contains k = false := by
  simp [delKey, List.contains_eq_any_beq]

theorem not_mem_delKey (l : List String) (k : String) : k ∉ delKey l k := by
  simp [delKey]

theorem alookup_isSome_aset {α : Type} (l : List (String × α)) (k : String) (v : α) :
    (alookup (aset l k v) k).isSome = true := by
  rw [alookup_aset_self]; rfl

/-- C9 — For every deviceId not present in the registry, the state
mutators `updateDeviceStatus` (the spec's `setStatus`),
`updateDeviceConfig` (the spec's `updateConfig`), and
`updateOperationMode` are logged no-ops: each returns normally and leaves
the whole registry state unchanged. -/
theorem c9_unknown_id_noop (dm : DMState) (deviceId : String)
    (st : DeviceStatus) (now : Nat) (p : DeviceConfigPatch) (mode : OpMode)
    (motion : Bool) (h : alookup dm.devices deviceId = none) :
    updateDeviceStatus dm deviceId st now = dm
    ∧ updateDeviceConfig dm deviceId p = dm
    ∧ updateOperationMode dm deviceId mode motion = dm := by
  refine ⟨?_, ?_, ?_⟩ <;>
    simp [updateDeviceStatus, updateDeviceConfig, updateOperationMode, h]

theorem c9_unknown_id_noop_witness :
    alookup (DMState.mk [] []).devices "AA:BB:CC:DD:EE:FF" = none
    ∧ (updateDeviceStatus (DMState.mk [] []) "AA:BB:CC:DD:EE:FF" .online 7 = DMState.mk [] []
       ∧ updateDeviceConfig (DMState.mk [] []) "AA:BB:CC:DD:EE:FF" {} = DMState.mk [] []
       ∧ updateOperationMode (DMState.mk [] []) "AA:BB:CC:DD:EE:FF" .alwaysOn true
           = DMState.mk [] []) :=
  ⟨by decide,
   c9_unknown_id_noop (DMState.mk [] []) "AA:BB:CC:DD:EE:FF" .online 7 {} .alwaysOn true
     (by decide)⟩

/-- C4 — Registration is idempotent: a second `registerDevice` call for
the same id (with no intervening removal) returns exactly the API key and
configuration of the first call and leaves the registry unchanged; a
first-time registration mints the supplied fresh random credential, the
default configuration, and initial status REGISTERED, indexing the key. -/
theorem c4_register_idempotent (dm : DMState) (deviceId : String)
    (k1 k2 : String) (now1 now2 : Nat) :
    (registerDevice ((registerDevice dm deviceId k1 now1).2) deviceId k2 now2).1
      = (registerDevice dm deviceId k1 now1).1
    ∧ (registerDevice ((registerDevice dm deviceId k1 now1).2) deviceId k2 now2).2
      = (registerDevice dm deviceId k1 now1).2
    ∧ (alookup dm.devices deviceId = none →
        (registerDevice dm deviceId k1 now1).1.1 = k1
        ∧ (registerDevice dm deviceId k1 now1).1.2 = config_defaultDeviceConfig
        ∧ (alookup (registerDevice dm deviceId k1 now1).2.devices deviceId).map
            DeviceInfo.status = some .registered
        ∧ alookup (registerDevice dm deviceId k1 now1).2.apiKeyToDeviceId k1
            = some deviceId) := by
  cases h : alookup dm.devices deviceId with
  | some existing =>
      refine ⟨?_, ?_, ?_⟩ <;> simp [registerDevice, h]
  | none =>
      have hself := alookup_aset_self dm.devices deviceId
      have hkey := alookup_aset_self dm.apiKeyToDeviceId k1 deviceId
      refine ⟨?_, ?_, ?_⟩ <;>
        simp [registerDevice, h, hself, hkey]

theorem c4_register_idempotent_witness :
    alookup (DMState.mk [] []).devices "AA:BB:CC:DD:EE:FF" = none
    ∧ ((registerDevice (DMState.mk [] []) "AA:BB:CC:DD:EE:FF" "key1" 5).1.1 = "key1"
       ∧ (registerDevice (DMState.mk [] []) "AA:BB:CC:DD:EE:FF" "key1" 5).1.2
           = config_defaultDeviceConfig
       ∧ (alookup (registerDevice (DMState.mk [] []) "AA:BB:CC:DD:EE:FF" "key1" 5).2.devices
            "AA:BB:CC:DD:EE:FF").map DeviceInfo.status = some .registered
       ∧ alookup (registerDevice (DMState.mk [] []) "AA:BB:CC:DD:EE:FF" "key1" 5).2.apiKeyToDeviceId
           "key1" = some "AA:BB:CC:DD:EE:FF") :=
  ⟨by decide,
   (c4_register_idempotent (DMState.mk [] []) "AA:BB:CC:DD:EE:FF" "key1" "key2" 5 6).2.2
     (by decide)⟩

/-- C8 — `stopRecording` on a device with no active pipeline is an
idempotent no-op: it returns the state unchanged (active recordings,
stream map, and device recording flags included) with no effects, and
stopping twice in a row always yields the same state as stopping once. -/
theorem c8_stop_idempotent (sys : Sys) (deviceId : String) (now now' : Nat)
    (h : sys.vp.activeRecordings.contains deviceId = false) :
    stopRecording sys deviceId now = (sys, [])
    ∧ (stopRecording (stopRecording sys deviceId now').1 deviceId now).1
        = (stopRecording sys deviceId now').1 := by
  have hmem : deviceId ∉ sys.vp.activeRecordings := by simpa using h
  have hstop : ∀ t, stopRecording sys deviceId t = (sys, []) := by
    intro t; simp [stopRecording, hmem]
  refine ⟨hstop now, ?_⟩
  rw [hstop now', hstop now]

theorem c8_stop_idempotent_witness :
    (Sys.mk (DMState.mk [] []) (VPState.mk [] [])
        (fun _ => ReadyState.closed) []).vp.activeRecordings.contains "AA:BB:CC:DD:EE:FF" = false
    ∧ stopRecording (Sys.mk (DMState.mk [] []) (VPState.mk [] [])
        (fun _ => ReadyState.closed) []) "AA:BB:CC:DD:EE:FF" 3
      = (Sys.mk (DMState.mk [] []) (VPState.mk [] []) (fun _ => ReadyState.closed) [], []) :=
  ⟨by decide,
   (c8_stop_idempotent (Sys.mk (DMState.mk [] []) (VPState.mk [] [])
       (fun _ => ReadyState.closed) []) "AA:BB:CC:DD:EE:FF" 3 4 (by decide)).1⟩

/-- C3 — Binding a connection to a registered device via `setSocket`
closes the previously bound connection when it is still open, stores the
new connection as the unique bound one, and transitions the device's
status to ONLINE; the binding is a single per-device field, so at most
one connection is bound to a device id at any instant. -/
theorem c3_setSocket_binding (dm : DMState) (w : SockWorld) (deviceId : String)
    (sid : Nat) (now : Nat) (dv : DeviceInfo)
    (h : alookup dm.devices deviceId = some dv) :
    ((alookup (setSocket dm w deviceId sid now).1.devices deviceId).map
        DeviceInfo.socket = some (some sid))
    ∧ ((alookup (setSocket dm w deviceId sid now).1.devices deviceId).map
        DeviceInfo.status = some .online)
    ∧ (∀ old, dv.socket = some old → w old = .wsOpen →
        (setSocket dm w deviceId sid now).2.1 old = .closing)
    ∧ (∀ dv', alookup (setSocket dm w deviceId sid now).1.devices deviceId = some dv' →
        dv'.socket = some sid) := by
  have hset := alookup_aset_self dm.devices deviceId { dv with socket := some sid }
  have hfinal :
      alookup (setSocket dm w deviceId sid now).1.devices deviceId
        = some
          { dv with
            socket := some sid
            status := .online
            lastSeen := now
            totalConnections := dv.totalConnections + 1 } := by
    simp [setSocket, h, updateDeviceStatus, hset, alookup_aset_self]
  refine ⟨?_, ?_, ?_, ?_⟩
  · rw [hfinal]; rfl
  · rw [hfinal]; rfl
  · intro old hold hopen
    simp [setSocket, h, hold, hopen, closeSock]
  · intro dv' hdv'
    rw [hfinal] at hdv'
    cases hdv'
    rfl

theorem c3_setSocket_binding_witness :
    alookup (sampleDM .registered (some 1) false).devices "AA:BB:CC:DD:EE:FF"
      = some (sampleDevice .registered (some 1) false)
    ∧ ((alookup (setSocket (sampleDM .registered (some 1) false)
        (fun _ => ReadyState.wsOpen) "AA:BB:CC:DD:EE:FF" 2 9).1.devices
        "AA:BB:CC:DD:EE:FF").map DeviceInfo.socket = some (some 2)) :=
  ⟨by decide,
   (c3_setSocket_binding (sampleDM .registered (some 1) false)
     (fun _ => ReadyState.wsOpen) "AA:BB:CC:DD:EE:FF" 2 9
     (sampleDevice .registered (some 1) false) (by decide)).1⟩

theorem removeSocket_lookup (dm : DMState) (k : String) (now : Nat) (d1 : DeviceInfo)
    (h : alookup dm.devices k = some d1) :
    alookup (removeSocket dm k now).devices k
      = some { d1 with socket := none, status := .offline, lastSeen := now } := by
  simp [removeSocket, h, updateDeviceStatus, alookup_aset_self]

/-- C7 — When a registered device's WebSocket connection closes (or
errors), `handleWebSocketClose` stops that device's recording pipeline
(no active recording and, if one was active, no recording stream remains),
clears the bound connection reference, and marks the device OFFLINE; the
handler is a total function, so it never raises to the transport layer. -/
theorem c7_close_cleanup (sys : Sys) (deviceId : String) (now : Nat)
    (dv : DeviceInfo) (h : alookup sys.dm.devices deviceId = some dv) :
    ((alookup (handleWebSocketClose sys deviceId now).1.dm.devices deviceId).map
        DeviceInfo.socket = some none)
    ∧ ((alookup (handleWebSocketClose sys deviceId now).1.dm.devices deviceId).map
        DeviceInfo.status = some .offline)
    ∧ (handleWebSocketClose sys deviceId now).1.vp.activeRecordings.contains deviceId
        = false
    ∧ (sys.vp.activeRecordings.contains deviceId = true →
        alookup (handleWebSocketClose sys deviceId now).1.vp.recordingStreams deviceId
          = none) := by
  by_cases hm : deviceId ∈ sys.vp.activeRecordings
  · have hs1dm : alookup ((stopRecording sys deviceId now).1).dm.devices deviceId
        = some { dv with isRecording := false } := by
      simp [stopRecording, hm, setRecordingStatus, h, alookup_aset_self]
    have hrm := removeSocket_lookup ((stopRecording sys deviceId now).1).dm deviceId now
      { dv with isRecording := false } hs1dm
    have hclose : (handleWebSocketClose sys deviceId now).1.dm
        = removeSocket ((stopRecording sys deviceId now).1).dm deviceId now := rfl
    refine ⟨?_, ?_, ?_, ?_⟩
    · rw [hclose, hrm]; rfl
    · rw [hclose, hrm]; rfl
    · have : (handleWebSocketClose sys deviceId now).1.vp
          = ((stopRecording sys deviceId now).1).vp := rfl
      rw [this]
      simp [stopRecording, hm, not_mem_delKey]
    · intro _
      have : (handleWebSocketClose sys deviceId now).1.vp
          = ((stopRecording sys deviceId now).1).vp := rfl
      rw [this]
      simp [stopRecording, hm, alookup_adel_self]
  · have hs1 : (stopRecording sys deviceId now).1 = sys := by
      simp [stopRecording, hm]
    have hrm := removeSocket_lookup sys.dm deviceId now dv h
    have hclose : (handleWebSocketClose sys deviceId now).1.dm
        = removeSocket ((stopRecording sys deviceId now).1).dm deviceId now := rfl
    refine ⟨?_, ?_, ?_, ?_⟩
    · rw [hclose, hs1, hrm]; rfl
    · rw [hclose, hs1, hrm]; rfl
    · have hv : (handleWebSocketClose sys deviceId now).1.vp
          = ((stopRecording sys deviceId now).1).vp := rfl
      rw [hv, hs1]
      simpa using hm
    · intro hc
      exact absurd (by simpa using hc) hm

theorem c7_close_cleanup_witness :
    alookup (Sys.mk (sampleDM .streaming (some 1) true)
        (VPState.mk ["AA:BB:CC:DD:EE:FF"] [("AA:BB:CC:DD:EE:FF", freshStream)])
        (fun _ => ReadyState.wsOpen) []).dm.devices "AA:BB:CC:DD:EE:FF"
      = some (sampleDevice .streaming (some 1) true)
    ∧ ((alookup (handleWebSocketClose (Sys.mk (sampleDM .streaming (some 1) true)
        (VPState.mk ["AA:BB:CC:DD:EE:FF"] [("AA:BB:CC:DD:EE:FF", freshStream)])
        (fun _ => ReadyState.wsOpen) []) "AA:BB:CC:DD:EE:FF" 11).1.dm.devices
        "AA:BB:CC:DD:EE:FF").map DeviceInfo.socket = some none) :=
  ⟨by decide,
   (c7_close_cleanup (Sys.mk (sampleDM .streaming (some 1) true)
       (VPState.mk ["AA:BB:CC:DD:EE:FF"] [("AA:BB:CC:DD:EE:FF", freshStream)])
       (fun _ => ReadyState.wsOpen) []) "AA:BB:CC:DD:EE:FF" 11
     (sampleDevice .streaming (some 1) true) (by decide)).1⟩

/-- C6 (counterexample) — the claim "a heartbeat never demotes a device
whose status is above ONLINE" is false: a device in status STREAMING is
demoted to ONLINE by processing a heartbeat envelope
(`handleDeviceCommand` calls `updateDeviceStatus(deviceId, ONLINE)`
unconditionally). -/
theorem c6_counterexample :
    ((alookup (Sys.mk (sampleDM .streaming (some 1) true) (VPState.mk [] [])
        (fun _ => ReadyState.wsOpen) []).dm.devices "AA:BB:CC:DD:EE:FF").map
        DeviceInfo.status = some .streaming)
    ∧ ((alookup (handleDeviceCommand (Sys.mk (sampleDM .streaming (some 1) true)
        (VPState.mk [] []) (fun _ => ReadyState.wsOpen) []) "AA:BB:CC:DD:EE:FF"
        (DeviceCommand.mk "heartbeat" none none) 5).1.dm.devices
        "AA:BB:CC:DD:EE:FF").map DeviceInfo.status = some .online)
    ∧ statusRank .online < statusRank .streaming := by
  refine ⟨by decide, by decide, by decide⟩

/-- C6 (amended) — Processing a heartbeat envelope from a registered
device refreshes its last-seen timestamp and sets its status to ONLINE
unconditionally; in particular a device in status STREAMING is demoted to
ONLINE. -/
theorem c6_heartbeat_sets_online (sys : Sys) (deviceId : String)
    (cmd : DeviceCommand) (now : Nat) (dv : DeviceInfo)
    (htype : cmd.type = "heartbeat")
    (h : alookup sys.dm.devices deviceId = some dv) :
    ((alookup (handleDeviceCommand sys deviceId cmd now).1.dm.devices deviceId).map
        DeviceInfo.status = some .online)
    ∧ ((alookup (handleDeviceCommand sys deviceId cmd now).1.dm.devices deviceId).map
        DeviceInfo.lastSeen = some now) := by
  constructor <;>
    simp [handleDeviceCommand, htype, updateDeviceStatus, h, alookup_aset_self]

theorem c6_heartbeat_sets_online_witness :
    (DeviceCommand.mk "heartbeat" none none).type = "heartbeat"
    ∧ alookup (Sys.mk (sampleDM .streaming (some 1) true) (VPState.mk [] [])
        (fun _ => ReadyState.wsOpen) []).dm.devices "AA:BB:CC:DD:EE:FF"
        = some (sampleDevice .streaming (some 1) true)
    ∧ ((alookup (handleDeviceCommand (Sys.mk (sampleDM .streaming (some 1) true)
        (VPState.mk [] []) (fun _ => ReadyState.wsOpen) []) "AA:BB:CC:DD:EE:FF"
        (DeviceCommand.mk "heartbeat" none none) 5).1.dm.devices
        "AA:BB:CC:DD:EE:FF").map DeviceInfo.status = some .online) :=
  ⟨by decide, by decide,
   (c6_heartbeat_sets_online (Sys.mk (sampleDM .streaming (some 1) true)
       (VPState.mk [] []) (fun _ => ReadyState.wsOpen) []) "AA:BB:CC:DD:EE:FF"
     (DeviceCommand.mk "heartbeat" none none) 5
     (sampleDevice .streaming (some 1) true) (by decide) (by decide)).1⟩

/-- C5 (counterexample) — the claim "a consecutive-failure count is
tracked so that after repeated failures restarts stop" is false: after
three full failure/restart cycles the fourth recording error still
schedules a restart (the handler keeps no failure count at all, compare
the pipeline state fields with `VideoProcessor.ts`). -/
theorem c5_counterexample :
    (handleRecordingError (c5_cycle (c5_cycle (c5_cycle c5_sys)))
        "AA:BB:CC:DD:EE:FF" 0).2
      = [Effect.restartScheduled "AA:BB:CC:DD:EE:FF" 5000] := by
  decide

/-- C5 (amended) — On a transcoder error, `handleRecordingError` tears
the pipeline down (active recording and stream entries removed, the
registered device's recording flag cleared) and schedules exactly one
automatic restart after a fixed 5000 ms delay; no consecutive-failure
count is tracked, so every failure schedules a restart regardless of the
prior state and repeated failures retry indefinitely. -/
theorem c5_restart_schedule (sys : Sys) (deviceId : String) (now : Nat) :
    (handleRecordingError sys deviceId now).2
      = [Effect.restartScheduled deviceId 5000]
    ∧ (handleRecordingError sys deviceId now).1.vp.activeRecordings.contains deviceId
        = false
    ∧ alookup (handleRecordingError sys deviceId now).1.vp.recordingStreams deviceId
        = none
    ∧ (∀ dv, alookup sys.dm.devices deviceId = some dv →
        (alookup (handleRecordingError sys deviceId now).1.dm.devices deviceId).map
          DeviceInfo.isRecording = some false) := by
  refine ⟨rfl, ?_, ?_, ?_⟩
  · exact contains_delKey _ _
  · exact alookup_adel_self _ _
  · intro dv h
    simp [handleRecordingError, setRecordingStatus, h, alookup_aset_self]

theorem c5_restart_schedule_witness :
    alookup c5_sys.dm.devices "AA:BB:CC:DD:EE:FF"
      = some (sampleDevice .streaming none true)
    ∧ ((alookup (handleRecordingError c5_sys "AA:BB:CC:DD:EE:FF" 0).1.dm.devices
        "AA:BB:CC:DD:EE:FF").map DeviceInfo.isRecording = some false) :=
  ⟨by decide,
   (c5_restart_schedule c5_sys "AA:BB:CC:DD:EE:FF" 0).2.2.2
     (sampleDevice .streaming none true) (by decide)⟩

theorem stopRecording_effects (sys : Sys) (deviceId : String) (now : Nat) :
    ∀ e ∈ (stopRecording sys deviceId now).2,
      e = Effect.streamEnded deviceId ∨ e = Effect.commandKilled deviceId := by
  intro e he
  by_cases hm : deviceId ∈ sys.vp.activeRecordings
  · by_cases hs : (alookup sys.vp.recordingStreams deviceId).isSome = true
    · simp [stopRecording, hm, hs] at he
      rcases he with h | h <;> simp [h]
    · have hs' : (alookup sys.vp.recordingStreams deviceId).isSome = false := by
        simpa using hs
      simp [stopRecording, hm, hs'] at he
      simp [he]
  · simp [stopRecording, hm] at he

theorem startRecording_effects (sys : Sys) (deviceId : String) (now : Nat) :
    ∀ e ∈ (startRecording sys deviceId now).2.1,
      e = Effect.streamEnded deviceId ∨ e = Effect.commandKilled deviceId
        ∨ e = Effect.recordingStarted deviceId := by
  intro e he
  unfold startRecording at he
  cases hl : alookup (stopRecording sys deviceId now).1.dm.devices deviceId with
  | none =>
      simp [hl] at he
      rcases stopRecording_effects sys deviceId now e he with h | h <;> simp [h]
  | some d =>
      simp [hl] at he
      rcases he with he | he
      · rcases stopRecording_effects sys deviceId now e he with h | h <;> simp [h]
      · simp [he]

theorem writeFrame_effects (sys : Sys) (deviceId : String) (bytes : List Nat) :
    ∀ e ∈ (writeFrame sys deviceId bytes).2, e = Effect.frameWritten deviceId bytes := by
  intro e he
  unfold writeFrame at he
  cases hl : alookup sys.vp.recordingStreams deviceId with
  | none => simp [hl] at he
  | some st =>
      by_cases hd : st.destroyed = true
      · simp [hl, hd] at he
      · have hd' : st.destroyed = false := by simpa using hd
        simp [hl, hd'] at he
        exact he

theorem videoPath_effects (sys : Sys) (deviceId : String) (bytes : List Nat) (now : Nat) :
    ∀ e ∈ (videoPath sys deviceId bytes now).2,
      e.isInvalidJsonLogged = false ∧ e.isSocketSend = false := by
  intro e he
  have hshape : e = Effect.streamEnded deviceId ∨ e = Effect.commandKilled deviceId
      ∨ e = Effect.recordingStarted deviceId ∨ e = Effect.frameWritten deviceId bytes := by
    unfold videoPath at he
    by_cases hr : isRecordingB sys deviceId = true
    · simp [hr] at he
      simp [writeFrame_effects sys deviceId bytes e he]
    · have hr' : isRecordingB sys deviceId = false := by simpa using hr
      by_cases hok : (startRecording sys deviceId now).2.2 = true
      · simp [hr', hok] at he
        rcases he with he | he
        · rcases startRecording_effects sys deviceId now e he with h | h | h <;> simp [h]
        · simp [writeFrame_effects _ deviceId bytes e he]
      · have hok' : (startRecording sys deviceId now).2.2 = false := by simpa using hok
        simp [hr', hok'] at he
        rcases startRecording_effects sys deviceId now e he with h | h | h <;> simp [h]
  rcases hshape with h | h | h | h <;>
    simp [h, Effect.isInvalidJsonLogged, Effect.isSocketSend]

theorem sendIfOpen_socketSend (w : SockWorld) (dev : Option DeviceInfo) (tag : String) :
    ∀ e ∈ sendIfOpen w dev tag, e.isSocketSend = true := by
  intro e he
  unfold sendIfOpen at he
  cases dev with
  | none => simp at he
  | some d =>
      cases hs : d.socket with
      | none => simp [hs] at he
      | some sid =>
          by_cases ho : w sid = .wsOpen
          · simp [hs, ho] at he
            simp [he, Effect.isSocketSend]
          · simp [hs, ho] at he

theorem handleDeviceCommand_effects (sys : Sys) (deviceId : String)
    (cmd : DeviceCommand) (now : Nat) :
    ∀ e ∈ (handleDeviceCommand sys deviceId cmd now).2, e.isSocketSend = true := by
  intro e he
  unfold handleDeviceCommand at he
  repeat' split at he
  all_goals try exact sendIfOpen_socketSend _ _ _ e he
  all_goals simp at he

theorem controlPath_no_frames (dec : List Nat → Option DeviceCommand) (sys : Sys)
    (deviceId : String) (bytes : List Nat) (now : Nat) :
    ∀ e ∈ (controlPath dec sys deviceId bytes now).2, e.isFrameWritten = false := by
  intro e he
  unfold controlPath at he
  cases hd : dec bytes with
  | none =>
      simp [hd] at he
      simp [he, Effect.isFrameWritten]
  | some cmd =>
      simp [hd] at he
      have := handleDeviceCommand_effects sys deviceId cmd now e he
      cases e <;> simp_all [Effect.isSocketSend, Effect.isFrameWritten]

/-- C1 (counterexample) — the claim "classification depends only on the
two leading bytes, not on the payload's total length" is false: the
payload consisting of exactly the two JPEG marker bytes `0xFF 0xD8` is
not classified as a video frame (the code requires `data.length > 2`);
it is routed to the control branch and, failing to parse as JSON, is
logged and dropped with the pipeline state untouched. -/
theorem c1_counterexample :
    ([0xFF, 0xD8] : List Nat).get? 0 = some 0xFF
    ∧ ([0xFF, 0xD8] : List Nat).get? 1 = some 0xD8
    ∧ isVideoFrame [0xFF, 0xD8] = false
    ∧ (handleWebSocketMessage decNone c1_sys "AA:BB:CC:DD:EE:FF" [0xFF, 0xD8] 0).2
        = [Effect.invalidJsonLogged "AA:BB:CC:DD:EE:FF"]
    ∧ (handleWebSocketMessage decNone c1_sys "AA:BB:CC:DD:EE:FF" [0xFF, 0xD8] 0).1.vp
        = c1_sys.vp := by
  refine ⟨by decide, by decide, by decide, by decide, by decide⟩

/-- C1 (amended) — A binary payload is classified as a video frame if and
only if its total length exceeds 2 and its first two bytes are
`0xFF 0xD8`; such payloads take the video branch (which never logs an
invalid-JSON drop and never sends on a socket), and every other payload
takes the control branch (parsed as JSON and dispatched, or logged and
dropped when parsing fails), which never writes a frame. -/
theorem c1_classification (dec : List Nat → Option DeviceCommand) (sys : Sys)
    (deviceId : String) (data : List Nat) (now : Nat) :
    (isVideoFrame data = true ↔
      (2 < data.length ∧ data.get? 0 = some 0xFF ∧ data.get? 1 = some 0xD8))
    ∧ (isVideoFrame data = true →
        handleWebSocketMessage dec sys deviceId data now = videoPath sys deviceId data now
        ∧ ∀ e ∈ (handleWebSocketMessage dec sys deviceId data now).2,
            e.isInvalidJsonLogged = false ∧ e.isSocketSend = false)
    ∧ (isVideoFrame data = false →
        handleWebSocketMessage dec sys deviceId data now
          = controlPath dec sys deviceId data now
        ∧ (∀ e ∈ (handleWebSocketMessage dec sys deviceId data now).2,
            e.isFrameWritten = false)
        ∧ (dec data = none →
            (handleWebSocketMessage dec sys deviceId data now).2
              = [Effect.invalidJsonLogged deviceId])) := by
  refine ⟨?_, ?_, ?_⟩
  · simp [isVideoFrame, Bool.and_eq_true, decide_eq_true_eq, beq_iff_eq, and_assoc]
  · intro hv
    have heq : handleWebSocketMessage dec sys deviceId data now
        = videoPath sys deviceId data now := by
      simp [handleWebSocketMessage, hv]
    refine ⟨heq, ?_⟩
    intro e he
    rw [heq] at he
    exact videoPath_effects sys deviceId data now e he
  · intro hv
    have heq : handleWebSocketMessage dec sys deviceId data now
        = controlPath dec sys deviceId data now := by
      simp [handleWebSocketMessage, hv]
    refine ⟨heq, ?_, ?_⟩
    · intro e he
      rw [heq] at he
      exact controlPath_no_frames dec sys deviceId data now e he
    · intro hd
      rw [heq]
      simp [controlPath, hd]

theorem c1_classification_witness :
    isVideoFrame [0xFF, 0xD8, 0x01] = true
    ∧ handleWebSocketMessage decNone c1_sys "AA:BB:CC:DD:EE:FF" [0xFF, 0xD8, 0x01] 0
        = videoPath c1_sys "AA:BB:CC:DD:EE:FF" [0xFF, 0xD8, 0x01] 0 :=
  ⟨by decide,
   ((c1_classification decNone c1_sys "AA:BB:CC:DD:EE:FF" [0xFF, 0xD8, 0x01] 0).2.1
     (by decide)).1⟩

/-- C2 (code evaluated at the failing input) — with a streaming device,
an active pipeline, and an open, connected frontend viewer (socket 7), a
JPEG-marked binary frame is forwarded verbatim to the pipeline's
recording stream only: the handler's effect list is exactly one frame
write, and contains no socket send to any viewer; no viewer broadcast of
frames exists in `handleWebSocketMessage`. -/
theorem c2_no_viewer_broadcast :
    c2_sys.frontendClients = [7]
    ∧ c2_sys.sockets 7 = .wsOpen
    ∧ isVideoFrame [0xFF, 0xD8, 0x01] = true
    ∧ (handleWebSocketMessage decNone c2_sys "AA:BB:CC:DD:EE:FF" [0xFF, 0xD8, 0x01] 0).2
        = [Effect.frameWritten "AA:BB:CC:DD:EE:FF" [0xFF, 0xD8, 0x01]]
    ∧ ((handleWebSocketMessage decNone c2_sys "AA:BB:CC:DD:EE:FF"
        [0xFF, 0xD8, 0x01] 0).2.all (fun e => !e.isSocketSend) = true)
    ∧ ((alookup (handleWebSocketMessage decNone c2_sys "AA:BB:CC:DD:EE:FF"
        [0xFF, 0xD8, 0x01] 0).1.vp.recordingStreams "AA:BB:CC:DD:EE:FF").map
        WStream.chunks = some [[0xFF, 0xD8, 0x01]]) := by
  refine ⟨by decide, by decide, by decide, by decide, by decide, by decide⟩

/-- C10 — An accepted WebSocket connection is handled as a viewer
(frontend) if and only if its handshake passes the same-origin test
(Origin or Referer containing the Host value or a localhost URL) and
carries no truthy `x-api-key` header; every other connection is handled
as a device: it is closed with protocol code 1008 when its credential
resolves to no registered device, and bound to the resolved device id
otherwise.  A same-origin handshake is admitted by `verifyClient`
unconditionally, with no credential check. -/
theorem c10_connection_classification (dm : DMState) (h : Handshake) :
    (isFrontendClient h = true → verifyClient dm h = true)
    ∧ (routeConnection dm h = .viewer ↔
        (isFrontendClient h = true ∧ jsTruthy h.xApiKeyHeader = false))
    ∧ (¬(isFrontendClient h = true ∧ jsTruthy h.xApiKeyHeader = false) →
        (getDeviceIdFromApiKey dm ((jsOr h.xApiKeyHeader h.queryApiKey).getD "") = none →
          routeConnection dm h = .deviceClosed1008)
        ∧ (∀ did,
            getDeviceIdFromApiKey dm ((jsOr h.xApiKeyHeader h.queryApiKey).getD "")
              = some did → did ≠ "" → routeConnection dm h = .deviceAccepted did)) := by
  have hcond : ∀ hF : isFrontendClient h = true, ∀ hK : jsTruthy h.xApiKeyHeader = false,
      routeConnection dm h = .viewer := by
    intro hF hK
    simp [routeConnection, hF, hK]
  refine ⟨?_, ?_, ?_⟩
  · intro hf
    simp [verifyClient, hf]
  · constructor
    · intro hr
      by_cases hF : isFrontendClient h = true
      · by_cases hK : jsTruthy h.xApiKeyHeader = false
        · exact ⟨hF, hK⟩
        · exfalso
          have hK' : jsTruthy h.xApiKeyHeader = true := by
            cases hk2 : jsTruthy h.xApiKeyHeader
            · exact absurd hk2 hK
            · rfl
          rw [routeConnection] at hr
          rw [if_neg (by simp [hF, hK'])] at hr
          cases hg : getDeviceIdFromApiKey dm ((jsOr h.xApiKeyHeader h.queryApiKey).getD "") with
          | none => simp [hg] at hr
          | some did =>
              by_cases hd : did = "" <;> simp [hg, hd] at hr
      · exfalso
        have hF' : isFrontendClient h = false := by
          cases hf2 : isFrontendClient h
          · rfl
          · exact absurd hf2 hF
        rw [routeConnection] at hr
        rw [if_neg (by simp [hF'])] at hr
        cases hg : getDeviceIdFromApiKey dm ((jsOr h.xApiKeyHeader h.queryApiKey).getD "") with
        | none => simp [hg] at hr
        | some did =>
            by_cases hd : did = "" <;> simp [hg, hd] at hr
    · intro hc
      exact hcond hc.1 hc.2
  · intro hnc
    have hcond' : (isFrontendClient h && !(jsTruthy h.xApiKeyHeader)) = false := by
      cases hF : isFrontendClient h <;> cases hK : jsTruthy h.xApiKeyHeader <;>
        simp_all
    constructor
    · intro hg
      rw [routeConnection, if_neg (by simp [hcond'])]
      simp [hg]
    · intro did hg hne
      rw [routeConnection, if_neg (by simp [hcond'])]
      simp [hg, hne]

theorem c10_connection_classification_witness :
    isFrontendClient c10_handshake = true
    ∧ verifyClient (sampleDM .online (some 1) false) c10_handshake = true :=
  ⟨by decide,
   (c10_connection_classification (sampleDM .online (some 1) false) c10_handshake).1
     (by decide)⟩

end PiNvr
